import Mathlib

/-!
Verification of the My Winter Car VIN decoder (`src/main.rs`).

Shallow embedding conventions:
* Rust byte buffers (`&[u8]`, `Vec<u8>`) are `List Nat` holding byte values.
* Rust `&str`/`String` values produced by the decoders are Lean `String`;
  the fixed-width VIN input string is modelled as `List Char` (the inputs
  the program feeds it are ASCII-uppercased, where Rust byte indices and
  char indices coincide).
* A fallible Rust call returning `Option<T>` is modelled with `PResult`:
  `PResult.ok` is `Some`, `PResult.noval` is `None`, and `PResult.panic`
  marks a Rust panic (out-of-bounds index or slice), which propagates
  through every caller.
-/

/-- Result of a Rust computation: success, `None`, or a panic that unwinds
through the caller. -/
inductive PResult (α : Type) where
  | panic : PResult α
  | noval : PResult α
  | ok : α → PResult α
deriving DecidableEq, Repr

/-- Models `Option::unwrap_or_default` (and `unwrap_or`) applied to the
non-panicking outcomes: `ok` yields the value, `noval` the default.  The
`panic` case never returns in Rust; callers only apply this after ruling
panics out. -/
def PResult.getD {α : Type} : PResult α → α → α
  | .ok a, _ => a
  | _, d => d

/-- Entry start byte in the binary format (`HX_START_ENTRY`). -/
def HX_START_ENTRY : Nat := 0x7E

/-- Dictionary container kind constant (`CONTAINER_TYPE_DICTIONARY`). -/
def CONTAINER_TYPE_DICTIONARY : Nat := 0x52

/-- Text value type tag (`VALUE_TYPE_STRING`). -/
def VALUE_TYPE_STRING : Nat := 0xFDE9F1EE

/-- Signed 32-bit value type tag (`VALUE_TYPE_INT32`). -/
def VALUE_TYPE_INT32 : Nat := 0xE2A80856

/-- Boolean value type tag (`VALUE_TYPE_BOOL`). -/
def VALUE_TYPE_BOOL : Nat := 0xAD4D7C9C

/-- Little-endian unsigned 32-bit read of the four bytes at index `i`
(`read_u32::<LittleEndian>` / `u32::from_le_bytes`).  Callers establish
the bounds; out-of-range positions read as 0 but are always guarded. -/
def le32 (l : List Nat) (i : Nat) : Nat :=
  l.getD i 0 + 0x100 * l.getD (i + 1) 0 + 0x10000 * l.getD (i + 2) 0 +
    0x1000000 * l.getD (i + 3) 0

/-- Reinterpret an unsigned 32-bit value (as produced by `le32`) as the
signed integer that `read_i32::<LittleEndian>` yields on the same bytes. -/
def int32OfLe (n : Nat) : Int :=
  if n % 2 ^ 32 < 2 ^ 31 then ((n % 2 ^ 32 : Nat) : Int)
  else ((n % 2 ^ 32 : Nat) : Int) - 2 ^ 32

/-- Lowercase hex digit for a value in 0..15, as produced by `{:02x}`. -/
def hexDigit (n : Nat) : Char :=
  if n < 10 then Char.ofNat (0x30 + n) else Char.ofNat (0x61 + (n - 10))

/-- Two lowercase hex digits for one byte, as produced by `{:02x}`. -/
def hexByte (b : Nat) : List Char :=
  [hexDigit (b / 16 % 16), hexDigit (b % 16)]

/-- UTF-8 decoding of a byte sequence, following the validation rules of
`std::str::from_utf8`: rejects continuation-byte leads, overlong forms,
surrogate code points and values above U+10FFFF.  Returns `none` exactly
when `from_utf8` returns `Err`. -/
def utf8Decode : List Nat → Option (List Char)
  | [] => some []
  | b0 :: rest =>
    if b0 < 0x80 then
      (utf8Decode rest).map (fun cs => Char.ofNat b0 :: cs)
    else if b0 < 0xC2 then none
    else if b0 < 0xE0 then
      match rest with
      | b1 :: r =>
        if 0x80 ≤ b1 ∧ b1 < 0xC0 then
          (utf8Decode r).map
            (fun cs => Char.ofNat ((b0 - 0xC0) * 0x40 + (b1 - 0x80)) :: cs)
        else none
      | [] => none
    else if b0 < 0xF0 then
      match rest with
      | b1 :: b2 :: r =>
        if (if b0 = 0xE0 then 0xA0 else 0x80) ≤ b1 ∧
            b1 < (if b0 = 0xED then 0xA0 else 0xC0) ∧
            0x80 ≤ b2 ∧ b2 < 0xC0 then
          (utf8Decode r).map
            (fun cs =>
              Char.ofNat ((b0 - 0xE0) * 0x1000 + (b1 - 0x80) * 0x40 +
                (b2 - 0x80)) :: cs)
        else none
      | _ => none
    else if b0 < 0xF5 then
      match rest with
      | b1 :: b2 :: b3 :: r =>
        if (if b0 = 0xF0 then 0x90 else 0x80) ≤ b1 ∧
            b1 < (if b0 = 0xF4 then 0x90 else 0xC0) ∧
            0x80 ≤ b2 ∧ b2 < 0xC0 ∧ 0x80 ≤ b3 ∧ b3 < 0xC0 then
          (utf8Decode r).map
            (fun cs =>
              Char.ofNat ((b0 - 0xF0) * 0x40000 + (b1 - 0x80) * 0x1000 +
                (b2 - 0x80) * 0x40 + (b3 - 0x80)) :: cs)
        else none
      | _ => none
    else none

/-- Result of `std::str::from_utf8(bytes).unwrap_or("").to_string()`. -/
def utf8StringOrEmpty (bytes : List Nat) : String :=
  match utf8Decode bytes with
  | some cs => String.mk cs
  | none => ""

/-- Embedding of `parse_value(data, &mut offset, value_type)`.  Returns the
`Option<String>` outcome together with the final cursor value; a `panic`
outcome records that Rust would abort (the string branch slices
`data[offset+1 .. offset+1+strlen]` without a bounds check). -/
def parse_value (data : List Nat) (offset : Nat) (value_type : Nat) :
    PResult String × Nat :=
  if value_type = VALUE_TYPE_STRING then
    match data.get? offset with
    | none => (.noval, offset)
    | some strlen =>
      if offset + 1 + strlen ≤ data.length then
        (.ok (utf8StringOrEmpty ((data.drop (offset + 1)).take strlen)),
          offset + 1 + strlen)
      else (.panic, offset)
  else if value_type = VALUE_TYPE_INT32 then
    if offset + 4 > data.length then (.noval, offset)
    else (.ok (toString (int32OfLe (le32 data offset))), offset + 4)
  else if value_type = VALUE_TYPE_BOOL then
    match data.get? offset with
    | none => (.noval, offset)
    | some b => (.ok (if b ≠ 0 then "true" else "false"), offset + 1)
  else
    if offset + 4 > data.length then (.noval, offset)
    else (.ok (String.mk (((data.drop offset).take 4).map hexByte).flatten),
      offset + 4)

/-- Decoding loop of `parse_dictionary_vec`: for each of `n` pairs decode a
key and a value with `parse_value`, substituting the empty string on a
`None` read (`unwrap_or_default`) and propagating panics. -/
def decode_pairs (data : List Nat) (key_type value_type : Nat) :
    Nat → Nat → PResult (List (String × String))
  | 0, _ => .ok []
  | n + 1, off =>
    let kr := parse_value data off key_type
    if kr.1 = .panic then .panic
    else
      let vr := parse_value data kr.2 value_type
      if vr.1 = .panic then .panic
      else
        match decode_pairs data key_type value_type n vr.2 with
        | .ok rest => .ok ((kr.1.getD "", vr.1.getD "") :: rest)
        | r => r

/-- Embedding of `parse_dictionary_vec(data, key_type, value_type)`: reads
the little-endian pair count from the first four bytes (empty result when
fewer than four bytes are present) and decodes that many pairs starting at
offset 4. -/
def parse_dictionary_vec (data : List Nat) (key_type value_type : Nat) :
    PResult (List (String × String)) :=
  if data.length < 4 then .ok []
  else decode_pairs data key_type value_type (le32 data 0) 4

/-- Embedding of `read_header(body)`; yields
`(container_type, key_type, value_type, offset)`.  The Rust code indexes
`body[0]` and slices `body[2..6]` / `body[6..10]` without bounds checks, so
a too-short body is a `panic`.  `read_u32` on an exactly-4-byte slice
cannot fail, so the `Option` returned by the source is never `None`. -/
def read_header (body : List Nat) : PResult (Nat × Nat × Nat × Nat) :=
  match body.get? 0 with
  | none => .panic
  | some b0 =>
    let container_type := if b0 ≠ 0xFF then b0 else 0x00
    if container_type = CONTAINER_TYPE_DICTIONARY then
      if body.length < 6 then .panic
      else
        let key_type := le32 body 2
        if body.length < 10 then .panic
        else
          .ok (container_type, key_type, le32 body 6,
            10 + (if key_type = 0 then 1 else 2))
    else
      if body.length < 6 then .panic
      else .ok (container_type, 0, le32 body 2, 6 + 1)

/-- UTF-8 bytes of the target tag name `"VINGen4"`.  The source compares
`String::from_utf8_lossy(tag_bytes) == "VINGen4"`; since lossy decoding
maps a byte sequence to `"VINGen4"` exactly when it is this ASCII byte
sequence, the comparison is embedded as byte-list equality. -/
def vingen4Bytes : List Nat := [0x56, 0x49, 0x4E, 0x47, 0x65, 0x6E, 0x34]

/-- Tag-name length of the entry at marker position `i` (`buffer[i + 1]`). -/
def tagSize (buffer : List Nat) (i : Nat) : Nat := buffer.getD (i + 1) 0

/-- Declared body length of the entry at marker position `i` (little-endian
u32 following the tag name). -/
def bodyLen (buffer : List Nat) (i : Nat) : Nat :=
  le32 buffer (i + 2 + tagSize buffer i)

/-- First byte index of the entry body for the entry at marker position `i`. -/
def bodyStart (buffer : List Nat) (i : Nat) : Nat :=
  i + 2 + tagSize buffer i + 4

/-- One-past-the-end byte index of the entry body for the entry at marker
position `i`. -/
def bodyEnd (buffer : List Nat) (i : Nat) : Nat :=
  bodyStart buffer i + bodyLen buffer i

/-- Tag-name bytes of the entry at marker position `i`
(`buffer[i + 2 .. i + 2 + tag_size]`). -/
def entryTag (buffer : List Nat) (i : Nat) : List Nat :=
  (buffer.drop (i + 2)).take (tagSize buffer i)

/-- Body bytes of the entry at marker position `i`
(`buffer[body_start .. body_end]`). -/
def entryBody (buffer : List Nat) (i : Nat) : List Nat :=
  (buffer.drop (bodyStart buffer i)).take (bodyLen buffer i)

/-- Scanning loop of `parse_vingen4_file`, starting at index `i`.  Mirrors
the `while` loop: advance by one on a non-marker byte, stop with `none` when
a declared read would run past the buffer, decode and return at the first
`VINGen4` entry whose header parses to the dictionary kind, and otherwise
resume at the end of the entry body.  `&body[offset..]` panics when the
header offset exceeds the body length, mirrored by the `off ≤ length`
guard. -/
def scanFrom (buffer : List Nat) (i : Nat) :
    PResult (Option (List (String × String))) :=
  if _h : i < buffer.length then
    if buffer.getD i 0 ≠ HX_START_ENTRY then
      scanFrom buffer (i + 1)
    else if i + 1 ≥ buffer.length then .ok none
    else if i + 2 + tagSize buffer i + 4 > buffer.length then .ok none
    else if bodyEnd buffer i > buffer.length then .ok none
    else if entryTag buffer i = vingen4Bytes then
      match read_header (entryBody buffer i) with
      | .ok (ctype, ktype, vtype, off) =>
        if ctype = CONTAINER_TYPE_DICTIONARY then
          if off ≤ (entryBody buffer i).length then
            match parse_dictionary_vec ((entryBody buffer i).drop off)
                ktype vtype with
            | .ok l => .ok (some l)
            | _ => .panic
          else .panic
        else scanFrom buffer (bodyEnd buffer i)
      | .noval => scanFrom buffer (bodyEnd buffer i)
      | .panic => .panic
    else scanFrom buffer (bodyEnd buffer i)
  else .ok none
termination_by buffer.length - i
decreasing_by
  all_goals try simp only [bodyEnd, bodyStart, tagSize, bodyLen]
  all_goals omega

/-- Embedding of `parse_vingen4_file` on the contents of the file: the
`File::open`/`read_to_end` steps are replaced by the byte buffer they
produce, after which the function is the scan from index 0. -/
def parse_vingen4_file (buffer : List Nat) :
    PResult (Option (List (String × String))) :=
  scanFrom buffer 0

/-- Body bytes of a well-formed `VINGen4` dictionary entry: dictionary
header (kind `0x52`, reserved byte, text key type, int32 value type, 2
property-size bytes), pair count 1, text key `"Foo"`, int32 value 42. -/
def c5body : List Nat :=
  [0x52, 0x00, 0xEE, 0xF1, 0xE9, 0xFD, 0x56, 0x08, 0xA8, 0xE2, 0x00, 0x00,
   0x01, 0x00, 0x00, 0x00, 0x03, 0x46, 0x6F, 0x6F, 0x2A, 0x00, 0x00, 0x00]

/-- Hand-constructed buffer from the spec's binary round-trip example:
marker, tag length 7, `"VINGen4"`, body length 24, then `c5body`. -/
def c5buf : List Nat :=
  [0x7E, 0x07] ++ vingen4Bytes ++ [0x18, 0x00, 0x00, 0x00] ++ c5body

/-- Buffer containing one complete `VINGen4` entry whose declared body
length is 0: `read_header` then indexes `body[0]` on an empty slice. -/
def c1buf : List Nat :=
  [0x7E, 0x07] ++ vingen4Bytes ++ [0x00, 0x00, 0x00, 0x00]

/-- Buffer whose first `VINGen4` entry (at index 0) has container kind 0
(not the dictionary constant) and whose second `VINGen4` entry is the
well-formed dictionary entry of `c5buf`. -/
def c2buf : List Nat :=
  [0x7E, 0x07] ++ vingen4Bytes ++ [0x06, 0x00, 0x00, 0x00] ++
    [0x00, 0x00, 0x00, 0x00, 0x00, 0x00] ++ c5buf

/-- Buffer containing one complete entry with the one-byte tag `"A"` and an
empty body, used to exercise the skip-to-body-end step. -/
def c8buf : List Nat := [0x7E, 0x01, 0x41, 0x00, 0x00, 0x00, 0x00]

/-- VIN field definition (`VinField`): lookup key, human-readable name and
field length in the VIN. -/
structure VinField where
  key : String
  display : String
  len : Nat
deriving DecidableEq, Repr

/-- Ordered VIN field structure (`VIN_STRUCTURE`). -/
def VIN_STRUCTURE : List VinField :=
  [⟨"Country", "Country", 1⟩,
   ⟨"AssemblyPlant", "Assembly Plant", 1⟩,
   ⟨"Model", "Model", 1⟩,
   ⟨"Body", "Body", 1⟩,
   ⟨"Version", "Version", 1⟩,
   ⟨"Year", "Year", 1⟩,
   ⟨"Month", "Month", 1⟩,
   ⟨"Serial", "Serial", 5⟩,
   ⟨"Drive", "Drive", 1⟩,
   ⟨"Engine", "Engine", 2⟩,
   ⟨"Gearbox", "Gearbox", 1⟩,
   ⟨"AxleRatio", "Axle Ratio", 1⟩,
   ⟨"AxleLock", "Axle Lock", 1⟩,
   ⟨"ColorsBody", "Body Colour", 1⟩,
   ⟨"VinylRoof", "Vinyl Roof", 1⟩,
   ⟨"InteriorTrim", "Interior Trim", 1⟩,
   ⟨"Radio", "Radio", 1⟩,
   ⟨"InstrumentPanel", "Instrument Panel", 1⟩,
   ⟨"Windshield", "Windshield", 1⟩,
   ⟨"Seats", "Seats", 1⟩,
   ⟨"Suspension", "Suspension", 1⟩,
   ⟨"PowerBrakes", "Brakes", 1⟩,
   ⟨"Wheels", "Wheels", 1⟩,
   ⟨"WindowHeater", "Rear Window", 1⟩]

/-- Sum of the field widths of a schema fragment; on the whole schema this
is the expected total code length (`VIN_STRUCTURE.iter().map(|f| f.len).sum()`
in the caller). -/
def sumLens (fs : List VinField) : Nat := (fs.map VinField.len).sum

/-- Field-splitting loop of `parse_vin`: for each field take the span
`vin[pos .. pos + field.len]`; `str::get` returns `None` when the end of
the span exceeds the input (yielding `""` via `unwrap_or`), and the cursor
advances by the field width regardless.  Association order is schema
order. -/
def parse_vin_fields : List VinField → Nat → List Char →
    List (String × List Char)
  | [], _, _ => []
  | f :: fs, pos, vin =>
    (f.key, if pos + f.len ≤ vin.length then (vin.drop pos).take f.len
      else []) :: parse_vin_fields fs (pos + f.len) vin

/-- Embedding of `parse_vin(vin)`: split the VIN into per-field substrings
in schema order.  The source collects into a `HashMap`; the embedding keeps
the association list in schema order (the map's contents as a function of
key are identical, and schema order is what the renderer iterates in). -/
def parse_vin (vin : List Char) : List (String × List Char) :=
  parse_vin_fields VIN_STRUCTURE 0 vin

/-- VIN field decode tables (`decode_map`), as a field-keyed association
list of code-keyed association lists. -/
def decode_map : List (String × List (String × String)) :=
  [("Country", [("U", "Corris Britain")]),
   ("AssemblyPlant",
    [("A", "Dagenham"), ("B", "Manchester"), ("C", "Saarlouis"),
     ("K", "Rheine")]),
   ("Model", [("B", "Rivett")]),
   ("Body", [("B", "2D Pillared Sedan")]),
   ("Version", [("D", "L"), ("E", "LX"), ("G", "SLX"), ("P", "GT")]),
   ("Year",
    [("L", "1971"), ("M", "1972"), ("N", "1973"), ("P", "1974 (Facelift)"),
     ("R", "1975"), ("S", "1976")]),
   ("Month",
    [("C", "01"), ("K", "02"), ("D", "03"), ("E", "04"), ("L", "05"),
     ("Y", "06"), ("S", "07"), ("T", "08"), ("J", "09"), ("U", "10"),
     ("M", "11"), ("P", "12")]),
   ("Drive", [("1", "RWD")]),
   ("Engine", [("NA", "Standard 2.0"), ("NE", "High Performance 2.0")]),
   ("Gearbox", [("7", "3-spd Automatic"), ("B", "4-spd Manual")]),
   ("AxleRatio",
    [("S", "3.44"), ("B", "3.75"), ("C", "3.89"), ("N", "4.11"),
     ("E", "4.44")]),
   ("AxleLock", [("A", "Open"), ("B", "LSD")]),
   ("ColorsBody",
    [("A", "Dark Grey"), ("B", "Nature White"), ("C", "Sand"),
     ("D", "Asphalt Grey"), ("E", "Blue"), ("F", "Sun Yellow"),
     ("G", "Dark Navy"), ("H", "Royal Red"), ("I", "Brown"), ("J", "Red"),
     ("K", "Electric Green"), ("L", "White Pearl"), ("M", "Spring Green"),
     ("R", "Purple"), ("T", "Yellow"), ("U", "Sky Blue"), ("V", "Orange"),
     ("X", "Navy Blue"), ("Y", "Special")]),
   ("VinylRoof",
    [("-", "Paint"), ("A", "Black"), ("B", "White"), ("C", "Tan"),
     ("K", "Blue"), ("M", "Dark Brown")]),
   ("InteriorTrim",
    [("N", "Red"), ("A", "Black"), ("K", "Tan"), ("F", "Blue"),
     ("Y", "Special")]),
   ("Radio", [("-", "Radio delete"), ("J", "Radio")]),
   ("InstrumentPanel",
    [("-", "Standard"), ("G", "Clock"), ("M", "Tachometer")]),
   ("Windshield", [("1", "Clear"), ("2", "Tinted"), ("F", "Sunstrip")]),
   ("Seats", [("8", "Standard"), ("B", "Bucket Style")]),
   ("Suspension",
    [("A", "Standard"), ("B", "Standard + Stiffened"), ("4", "Lowered"),
     ("M", "Lowered + Stiffened")]),
   ("PowerBrakes", [("-", "Standard"), ("B", "Power Brakes")]),
   ("Wheels",
    [("A", "13\" Steel"), ("B", "13\" Steel + hubcaps"), ("4", "14\" Sport"),
     ("M", "14\" Steel / 14\" Octo")]),
   ("WindowHeater",
    [("-", "Standard"), ("B", "Heated"), ("M", "Standard + Window Grille")])]

/-- Table consultation (`decode_map.get(field).and_then(|m| m.get(code))`),
the `lookup` interface of the spec. -/
def lookup_code (field code : String) : Option String :=
  (decode_map.lookup field).bind (fun m => m.lookup code)

/-- Embedding of `color_for_code_with_field(field, code)`: the GUI swatch
color (RGB triple) for a code of a color-bearing field. -/
def color_for_code_with_field (field code : String) :
    Option (Nat × Nat × Nat) :=
  match field, code with
  | "ColorsBody", "A" => some (64, 64, 64)
  | "ColorsBody", "B" => some (240, 240, 240)
  | "ColorsBody", "C" => some (210, 180, 140)
  | "ColorsBody", "D" => some (80, 80, 80)
  | "ColorsBody", "E" => some (0, 80, 200)
  | "ColorsBody", "F" => some (255, 220, 40)
  | "ColorsBody", "G" => some (10, 10, 60)
  | "ColorsBody", "H" => some (180, 0, 0)
  | "ColorsBody", "I" => some (120, 80, 40)
  | "ColorsBody", "J" => some (200, 0, 0)
  | "ColorsBody", "K" => some (0, 200, 80)
  | "ColorsBody", "L" => some (255, 255, 255)
  | "ColorsBody", "M" => some (120, 255, 120)
  | "ColorsBody", "R" => some (160, 0, 160)
  | "ColorsBody", "T" => some (255, 255, 0)
  | "ColorsBody", "U" => some (120, 180, 255)
  | "ColorsBody", "V" => some (255, 120, 0)
  | "ColorsBody", "X" => some (0, 0, 120)
  | "ColorsBody", "Y" => some (212, 175, 55)
  | "VinylRoof", "-" => some (200, 200, 200)
  | "VinylRoof", "A" => some (20, 20, 20)
  | "VinylRoof", "B" => some (255, 255, 255)
  | "VinylRoof", "C" => some (210, 180, 140)
  | "VinylRoof", "K" => some (0, 80, 200)
  | "VinylRoof", "M" => some (80, 40, 20)
  | "InteriorTrim", "N" => some (200, 0, 0)
  | "InteriorTrim", "A" => some (20, 20, 20)
  | "InteriorTrim", "K" => some (210, 180, 140)
  | "InteriorTrim", "F" => some (0, 80, 200)
  | "InteriorTrim", "Y" => some (212, 175, 55)
  | _, _ => none

/-- Color-selection logic of `render_color_swatch`: the swatch color drawn
for `field_key` with raw value `val`, where `body_color` is what the
`body_color_getter` closure returns.  For `VinylRoof` with value `"-"` and
an available body color, the body color's swatch replaces the field's
own. -/
def swatch_color (field_key val : String) (body_color : Option String) :
    Option (Nat × Nat × Nat) :=
  if field_key = "ColorsBody" ∨ field_key = "VinylRoof" ∨
      field_key = "InteriorTrim" then
    if field_key = "VinylRoof" ∧ val = "-" then
      match body_color with
      | some b => color_for_code_with_field "ColorsBody" b
      | none => color_for_code_with_field field_key val
    else color_for_code_with_field field_key val
  else none

/-- One scan step: a complete entry whose tag name is not the target is
skipped in full, resuming at the end of its body. -/
theorem scanFrom_skip (buffer : List Nat) (i : Nat)
    (h1 : i < buffer.length)
    (hm : buffer.getD i 0 = HX_START_ENTRY)
    (h2 : i + 1 < buffer.length)
    (h3 : i + 2 + tagSize buffer i + 4 ≤ buffer.length)
    (h4 : bodyEnd buffer i ≤ buffer.length)
    (h5 : entryTag buffer i ≠ vingen4Bytes) :
    scanFrom buffer i = scanFrom buffer (bodyEnd buffer i) := by
  rw [scanFrom]
  rw [dif_pos h1, if_neg (not_not_intro hm), if_neg (by omega),
    if_neg (by omega), if_neg (by omega), if_neg h5]

/-- One scan step: a complete target-tagged entry whose header parses to a
non-dictionary container kind is skipped, resuming at the end of its body. -/
theorem scanFrom_nondict_skip (buffer : List Nat) (i : Nat)
    (ct kt vt off : Nat)
    (h1 : i < buffer.length)
    (hm : buffer.getD i 0 = HX_START_ENTRY)
    (h2 : i + 1 < buffer.length)
    (h3 : i + 2 + tagSize buffer i + 4 ≤ buffer.length)
    (h4 : bodyEnd buffer i ≤ buffer.length)
    (h5 : entryTag buffer i = vingen4Bytes)
    (h6 : read_header (entryBody buffer i) = .ok (ct, kt, vt, off))
    (h7 : ct ≠ CONTAINER_TYPE_DICTIONARY) :
    scanFrom buffer i = scanFrom buffer (bodyEnd buffer i) := by
  rw [scanFrom]
  rw [dif_pos h1, if_neg (not_not_intro hm), if_neg (by omega),
    if_neg (by omega), if_neg (by omega), if_pos h5, h6]
  simp only [if_neg h7]

/-- One scan step: a complete target-tagged entry with a dictionary header
and an in-bounds data offset returns the decoded dictionary. -/
theorem scanFrom_found (buffer : List Nat) (i : Nat)
    (kt vt off : Nat) (l : List (String × String))
    (h1 : i < buffer.length)
    (hm : buffer.getD i 0 = HX_START_ENTRY)
    (h2 : i + 1 < buffer.length)
    (h3 : i + 2 + tagSize buffer i + 4 ≤ buffer.length)
    (h4 : bodyEnd buffer i ≤ buffer.length)
    (h5 : entryTag buffer i = vingen4Bytes)
    (h6 : read_header (entryBody buffer i) =
      .ok (CONTAINER_TYPE_DICTIONARY, kt, vt, off))
    (h7 : off ≤ (entryBody buffer i).length)
    (h8 : parse_dictionary_vec ((entryBody buffer i).drop off) kt vt = .ok l) :
    scanFrom buffer i = .ok (some l) := by
  rw [scanFrom]
  rw [dif_pos h1, if_neg (not_not_intro hm), if_neg (by omega),
    if_neg (by omega), if_neg (by omega), if_pos h5, h6]
  simp only [eq_self_iff_true, if_true, if_pos h7, h8]

/-- One scan step: a complete target-tagged entry whose header read panics
makes the whole scan panic. -/
theorem scanFrom_header_panic (buffer : List Nat) (i : Nat)
    (h1 : i < buffer.length)
    (hm : buffer.getD i 0 = HX_START_ENTRY)
    (h2 : i + 1 < buffer.length)
    (h3 : i + 2 + tagSize buffer i + 4 ≤ buffer.length)
    (h4 : bodyEnd buffer i ≤ buffer.length)
    (h5 : entryTag buffer i = vingen4Bytes)
    (h6 : read_header (entryBody buffer i) = .panic) :
    scanFrom buffer i = .panic := by
  rw [scanFrom]
  rw [dif_pos h1, if_neg (not_not_intro hm), if_neg (by omega),
    if_neg (by omega), if_neg (by omega), if_pos h5, h6]

/-- Cursor atomicity of the Value Reader: a `None` outcome leaves the
cursor at its pre-call position, in every type branch. -/
theorem parse_value_noval_offset (data : List Nat) (offset value_type : Nat)
    (h : (parse_value data offset value_type).1 = PResult.noval) :
    (parse_value data offset value_type).2 = offset := by
  unfold parse_value at h ⊢
  revert h
  repeat' split
  all_goals simp

/-- The pair-decoding loop never yields the `None` outcome: it returns a
list or propagates a panic. -/
theorem decode_pairs_not_noval :
    ∀ (n : Nat) (data : List Nat) (kt vt off : Nat),
      decode_pairs data kt vt n off ≠ PResult.noval := by
  intro n
  induction n with
  | zero => intro data kt vt off; simp [decode_pairs]
  | succ n ih =>
    intro data kt vt off
    simp only [decode_pairs]
    split
    · simp
    · split
      · simp
      · cases hr : decode_pairs data kt vt n
            ((parse_value data (parse_value data off kt).2 vt).2) with
        | ok rest => simp [hr]
        | panic => simp [hr]
        | noval => exact absurd hr (ih data kt vt _)

/-- Whenever the pair-decoding loop completes without a panic, it emits
exactly one pair per counted entry. -/
theorem decode_pairs_length :
    ∀ (n : Nat) (data : List Nat) (kt vt off : Nat)
      (l : List (String × String)),
      decode_pairs data kt vt n off = PResult.ok l → l.length = n := by
  intro n
  induction n with
  | zero =>
    intro data kt vt off l h
    simp only [decode_pairs, PResult.ok.injEq] at h
    simp [← h]
  | succ n ih =>
    intro data kt vt off l h
    simp only [decode_pairs] at h
    split at h
    · exact absurd h (by simp)
    · split at h
      · exact absurd h (by simp)
      · cases hr : decode_pairs data kt vt n
            ((parse_value data (parse_value data off kt).2 vt).2) with
        | ok rest =>
          rw [hr] at h
          simp only [PResult.ok.injEq] at h
          simp [← h, ih data kt vt _ rest hr]
        | panic => rw [hr] at h; exact absurd h (by simp)
        | noval => exact absurd hr (decode_pairs_not_noval n data kt vt _)

/-- Concatenation of the substrings produced for a schema fragment, when
the input is exactly long enough, reconstructs the input from the cursor
position on. -/
theorem parse_vin_fields_flatten :
    ∀ (fs : List VinField) (pos : Nat) (vin : List Char),
      vin.length = pos + sumLens fs →
      ((parse_vin_fields fs pos vin).map Prod.snd).flatten = vin.drop pos := by
  intro fs
  induction fs with
  | nil =>
    intro pos vin h
    simp [sumLens] at h
    simp [parse_vin_fields]
    omega
  | cons f fs ih =>
    intro pos vin h
    have hsum : sumLens (f :: fs) = f.len + sumLens fs := by
      simp [sumLens]
    rw [hsum] at h
    have hle : pos + f.len ≤ vin.length := by omega
    simp only [parse_vin_fields, List.map_cons, List.flatten_cons,
      if_pos hle]
    rw [ih (pos + f.len) vin (by omega)]
    rw [show vin.drop (pos + f.len) = (vin.drop pos).drop f.len by
      rw [List.drop_drop]]
    exact List.take_append_drop f.len (vin.drop pos)

/-- Shape of the `i`-th association produced by the field-splitting loop:
the `i`-th schema key paired with the span at the accumulated offset, or
the empty string when the span is not wholly available. -/
theorem parse_vin_fields_get? :
    ∀ (fs : List VinField) (pos : Nat) (vin : List Char) (i : Nat),
      (parse_vin_fields fs pos vin).get? i =
        (fs.get? i).map (fun f =>
          (f.key,
            if pos + sumLens (fs.take i) + f.len ≤ vin.length then
              (vin.drop (pos + sumLens (fs.take i))).take f.len
            else [])) := by
  intro fs
  induction fs with
  | nil => intro pos vin i; simp [parse_vin_fields]
  | cons f fs ih =>
    intro pos vin i
    cases i with
    | zero => simp [parse_vin_fields, sumLens]
    | succ i =>
      simp only [parse_vin_fields, List.get?_cons_succ, List.take_succ_cons]
      rw [ih (pos + f.len) vin i]
      have harith : pos + f.len + sumLens (fs.take i) =
          pos + sumLens (f :: fs.take i) := by
        simp [sumLens]; ring
      rw [harith]

/-- C1: the spec asserts that the binary pipeline never panics on any
buffer, always degrading to a not-found or partial result.  The code
violates this: a complete `VINGen4` entry whose declared body length is 0
reaches `read_header`, which indexes `body[0]` on the empty body slice and
panics.  This theorem evaluates the pipeline at that failing input. -/
theorem c1_truncated_read_panics : parse_vingen4_file c1buf = PResult.panic := by
  show scanFrom c1buf 0 = PResult.panic
  exact scanFrom_header_panic c1buf 0 (by decide) (by decide) (by decide)
    (by decide) (by decide) (by decide) (by decide)

/-- C2 counterexample: `c2buf` has its first `VINGen4`-tagged entry at
index 0 with container kind 0 (not the dictionary constant), yet the
overall result is not `None`: the scanner keeps going and decodes the
second `VINGen4` entry, returning its pair.  This refutes both "the result
is no data" and "no later entry with the same tag is ever used". -/
theorem c2_counterexample :
    entryTag c2buf 0 = vingen4Bytes ∧
    read_header (entryBody c2buf 0) = PResult.ok (0, 0, 0, 7) ∧
    (0 : Nat) ≠ CONTAINER_TYPE_DICTIONARY ∧
    parse_vingen4_file c2buf = PResult.ok (some [("Foo", "42")]) ∧
    parse_vingen4_file c2buf ≠ PResult.ok none := by
  have h1 : scanFrom c2buf 0 = scanFrom c2buf (bodyEnd c2buf 0) :=
    scanFrom_nondict_skip c2buf 0 0 0 0 7 (by decide) (by decide) (by decide)
      (by decide) (by decide) (by decide) (by decide) (by decide)
  have he : bodyEnd c2buf 0 = 19 := by decide
  have h2 : scanFrom c2buf 19 = PResult.ok (some [("Foo", "42")]) :=
    scanFrom_found c2buf 19 VALUE_TYPE_STRING VALUE_TYPE_INT32 12
      [("Foo", "42")] (by decide) (by decide) (by decide) (by decide)
      (by decide) (by decide) (by decide) (by decide) (by decide)
  have hres : parse_vingen4_file c2buf = PResult.ok (some [("Foo", "42")]) := by
    show scanFrom c2buf 0 = _
    rw [h1, he, h2]
  exact ⟨by decide, by decide, by decide, hres, by rw [hres]; decide⟩

/-- C2 amended: a complete target-tagged entry whose header parses to a
container kind other than the dictionary constant is skipped, and the scan
continues at the end of that entry's body (so a later `VINGen4` entry can
still be used; `None` arises only if no dictionary-kind entry is found). -/
theorem c2_nondict_scan_continues (buffer : List Nat)
    (i ct kt vt off : Nat)
    (h1 : i < buffer.length)
    (hm : buffer.getD i 0 = HX_START_ENTRY)
    (h2 : i + 1 < buffer.length)
    (h3 : i + 2 + tagSize buffer i + 4 ≤ buffer.length)
    (h4 : bodyEnd buffer i ≤ buffer.length)
    (h5 : entryTag buffer i = vingen4Bytes)
    (h6 : read_header (entryBody buffer i) = PResult.ok (ct, kt, vt, off))
    (h7 : ct ≠ CONTAINER_TYPE_DICTIONARY) :
    scanFrom buffer i = scanFrom buffer (bodyEnd buffer i) :=
  scanFrom_nondict_skip buffer i ct kt vt off h1 hm h2 h3 h4 h5 h6 h7

/-- Witness for `c2_nondict_scan_continues` at `c2buf`, index 0. -/
theorem c2_nondict_scan_continues_witness :
    scanFrom c2buf 0 = scanFrom c2buf (bodyEnd c2buf 0) :=
  c2_nondict_scan_continues c2buf 0 0 0 0 7 (by decide) (by decide)
    (by decide) (by decide) (by decide) (by decide) (by decide) (by decide)

/-- C3 counterexample: for the 8-character input `"AAAAAAAB"` the
`"Serial"` field (cursor 7, width 5) is only partly available
(7 < 8 < 12), and the available characters are the non-empty `['B']`; the
decoder nevertheless yields the empty string for the field, refuting "the
truncated, non-empty substring of available characters". -/
theorem c3_counterexample :
    (parse_vin (String.data "AAAAAAAB")).get? 7 = some ("Serial", []) ∧
    ((String.data "AAAAAAAB").drop 7).take 5 = ['B'] ∧
    (['B'] : List Char) ≠ [] := by decide

/-- C3 amended: for every input whose length makes some field's span only
partly available (start < length < start + width), `decode_code` yields the
empty string for that field (the `str::get` call returns `None` for a
partial span and `unwrap_or` substitutes `""`); no out-of-bounds failure
occurs. -/
theorem c3_partial_span_empty (vin : List Char) (i : Nat) (f : VinField)
    (hf : VIN_STRUCTURE.get? i = some f)
    (h1 : sumLens (VIN_STRUCTURE.take i) < vin.length)
    (h2 : vin.length < sumLens (VIN_STRUCTURE.take i) + f.len) :
    (parse_vin vin).get? i = some (f.key, []) := by
  unfold parse_vin
  rw [parse_vin_fields_get? VIN_STRUCTURE 0 vin i, hf]
  simp only [Option.map_some']
  rw [if_neg (by omega)]

/-- Witness for `c3_partial_span_empty`: the `"Serial"` field of the
8-character input `"AAAAAAAB"`. -/
theorem c3_partial_span_empty_witness :
    (parse_vin (String.data "AAAAAAAB")).get? 7 = some ("Serial", []) :=
  c3_partial_span_empty (String.data "AAAAAAAB") 7 ⟨"Serial", "Serial", 5⟩
    (by decide) (by decide) (by decide)

/-- C4 counterexample: the claim's asserted total code length of 24 is
false; the sum of the 24 shipped field widths is 29. -/
theorem c4_counterexample :
    sumLens VIN_STRUCTURE ≠ 24 ∧ sumLens VIN_STRUCTURE = 29 := by decide

/-- C4 amended: the shipped Field Schema has exactly 24 ordered fields
with widths 1,1,1,1,1,1,1,5,1,2 followed by fourteen fields of width 1,
and the expected total code length (the sum of all widths, which the
caller validates input length against) is 29 characters, not 24. -/
theorem c4_schema_shape :
    VIN_STRUCTURE.length = 24 ∧
    VIN_STRUCTURE.map VinField.len =
      [1, 1, 1, 1, 1, 1, 1, 5, 1, 2,
       1, 1, 1, 1, 1, 1, 1, 1, 1, 1, 1, 1, 1, 1] ∧
    sumLens VIN_STRUCTURE = 29 := by decide

/-- C5: the dictionary decode returns exactly as many pairs as the 4-byte
little-endian pair count declares whenever it completes (first conjunct,
for every buffer), and on the spec's hand-constructed buffer — one
`VINGen4` entry, dictionary container, count 1, text key `"Foo"`, int32
value 42 — the whole pipeline returns exactly the single pair
`("Foo", "42")` in body order (second conjunct). -/
theorem c5_dictionary_count_and_example :
    (∀ (data : List Nat) (kt vt : Nat) (l : List (String × String)),
        parse_dictionary_vec data kt vt = PResult.ok l →
        4 ≤ data.length → l.length = le32 data 0) ∧
    parse_vingen4_file c5buf = PResult.ok (some [("Foo", "42")]) := by
  constructor
  · intro data kt vt l h hlen
    unfold parse_dictionary_vec at h
    rw [if_neg (by omega)] at h
    exact decode_pairs_length (le32 data 0) data kt vt 4 l h
  · show scanFrom c5buf 0 = _
    exact scanFrom_found c5buf 0 VALUE_TYPE_STRING VALUE_TYPE_INT32 12
      [("Foo", "42")] (by decide) (by decide) (by decide) (by decide)
      (by decide) (by decide) (by decide) (by decide) (by decide)

/-- Witness for `c5_dictionary_count_and_example` on the four-byte buffer
declaring count 1. -/
theorem c5_dictionary_count_and_example_witness :
    ([("", "")] : List (String × String)).length = le32 [1, 0, 0, 0] 0 :=
  c5_dictionary_count_and_example.1 [1, 0, 0, 0] VALUE_TYPE_BOOL
    VALUE_TYPE_BOOL [("", "")] (by decide) (by decide)

/-- C6: for every code whose length is exactly the schema's total width,
concatenating the substrings produced by `decode_code` in schema order
reproduces the input exactly. -/
theorem c6_code_roundtrip (vin : List Char)
    (h : vin.length = sumLens VIN_STRUCTURE) :
    ((parse_vin vin).map Prod.snd).flatten = vin := by
  unfold parse_vin
  rw [parse_vin_fields_flatten VIN_STRUCTURE 0 vin (by omega)]
  exact List.drop_zero vin

/-- Witness for `c6_code_roundtrip` on a 29-character input. -/
theorem c6_code_roundtrip_witness :
    ((parse_vin (List.replicate 29 'A')).map Prod.snd).flatten =
      List.replicate 29 'A' :=
  c6_code_roundtrip (List.replicate 29 'A') (by decide)

/-- C7: one step of the dictionary decode never aborts on a failed field
read.  Whenever the step as a whole does not panic, it emits exactly the
pair `(key read else "", value read else "")` — so a `None` outcome from
the Value Reader for the key or for the value becomes the empty string for
that field (stated explicitly in the last two conjuncts) — decoding
continues with the remaining reads, and the loop still emits one pair per
counted entry. -/
theorem c7_lenient_field_degrade (data : List Nat) (kt vt n off : Nat)
    (hnp : decode_pairs data kt vt (n + 1) off ≠ PResult.panic) :
    decode_pairs data kt vt (n + 1) off =
      PResult.ok
        (((parse_value data off kt).1.getD "",
          (parse_value data (parse_value data off kt).2 vt).1.getD "") ::
          (decode_pairs data kt vt n
            (parse_value data (parse_value data off kt).2 vt).2).getD []) ∧
    ((decode_pairs data kt vt n
        (parse_value data (parse_value data off kt).2 vt).2).getD []).length
      = n ∧
    ((parse_value data off kt).1 = PResult.noval →
      (parse_value data off kt).1.getD "" = "") ∧
    ((parse_value data (parse_value data off kt).2 vt).1 = PResult.noval →
      (parse_value data (parse_value data off kt).2 vt).1.getD "" = "") := by
  simp only [decode_pairs] at hnp ⊢
  by_cases hkp : (parse_value data off kt).1 = PResult.panic
  · rw [if_pos hkp] at hnp; exact absurd rfl hnp
  · rw [if_neg hkp] at hnp ⊢
    by_cases hvp :
        (parse_value data (parse_value data off kt).2 vt).1 = PResult.panic
    · rw [if_pos hvp] at hnp; exact absurd rfl hnp
    · rw [if_neg hvp] at hnp ⊢
      cases hr : decode_pairs data kt vt n
          (parse_value data (parse_value data off kt).2 vt).2 with
      | ok rest =>
        simp only [hr, PResult.getD]
        exact ⟨trivial, decode_pairs_length n data kt vt _ rest hr,
          fun h => by rw [h], fun h => by rw [h]⟩
      | noval => exact absurd hr (decode_pairs_not_noval n data kt vt _)
      | panic => simp only [hr] at hnp; exact absurd rfl hnp

/-- Witness for `c7_lenient_field_degrade` on a buffer where the key read
succeeds (text key `"A"`) and the value read returns `None` (boolean read
at the exhausted cursor), the pair emitted being `("A", "")`. -/
theorem c7_lenient_field_degrade_witness :
    decode_pairs [1, 0, 0, 0, 1, 0x41] VALUE_TYPE_STRING VALUE_TYPE_BOOL
        (0 + 1) 4 =
      PResult.ok
        (((parse_value [1, 0, 0, 0, 1, 0x41] 4 VALUE_TYPE_STRING).1.getD "",
          (parse_value [1, 0, 0, 0, 1, 0x41]
            (parse_value [1, 0, 0, 0, 1, 0x41] 4 VALUE_TYPE_STRING).2
            VALUE_TYPE_BOOL).1.getD "") ::
          (decode_pairs [1, 0, 0, 0, 1, 0x41] VALUE_TYPE_STRING
            VALUE_TYPE_BOOL 0
            (parse_value [1, 0, 0, 0, 1, 0x41]
              (parse_value [1, 0, 0, 0, 1, 0x41] 4 VALUE_TYPE_STRING).2
              VALUE_TYPE_BOOL).2).getD []) ∧
    ((decode_pairs [1, 0, 0, 0, 1, 0x41] VALUE_TYPE_STRING VALUE_TYPE_BOOL 0
        (parse_value [1, 0, 0, 0, 1, 0x41]
          (parse_value [1, 0, 0, 0, 1, 0x41] 4 VALUE_TYPE_STRING).2
          VALUE_TYPE_BOOL).2).getD []).length = 0 ∧
    ((parse_value [1, 0, 0, 0, 1, 0x41] 4 VALUE_TYPE_STRING).1 =
        PResult.noval →
      (parse_value [1, 0, 0, 0, 1, 0x41] 4 VALUE_TYPE_STRING).1.getD ""
        = "") ∧
    ((parse_value [1, 0, 0, 0, 1, 0x41]
        (parse_value [1, 0, 0, 0, 1, 0x41] 4 VALUE_TYPE_STRING).2
        VALUE_TYPE_BOOL).1 = PResult.noval →
      (parse_value [1, 0, 0, 0, 1, 0x41]
        (parse_value [1, 0, 0, 0, 1, 0x41] 4 VALUE_TYPE_STRING).2
        VALUE_TYPE_BOOL).1.getD "" = "") :=
  c7_lenient_field_degrade [1, 0, 0, 0, 1, 0x41] VALUE_TYPE_STRING
    VALUE_TYPE_BOOL 0 4 (by decide)

/-- C8: a complete entry whose tag differs from the target is skipped in
full: the scan resumes at marker + 2 + tag length + 4 + body length, not
at marker + 1, so marker bytes inside the classified entry's body are
never treated as a new entry start. -/
theorem c8_skip_full_entry (buffer : List Nat) (i : Nat)
    (h1 : i < buffer.length)
    (hm : buffer.getD i 0 = HX_START_ENTRY)
    (h2 : i + 1 < buffer.length)
    (h3 : i + 2 + tagSize buffer i + 4 ≤ buffer.length)
    (h4 : bodyEnd buffer i ≤ buffer.length)
    (h5 : entryTag buffer i ≠ vingen4Bytes) :
    scanFrom buffer i =
      scanFrom buffer (i + 2 + tagSize buffer i + 4 + bodyLen buffer i) :=
  scanFrom_skip buffer i h1 hm h2 h3 h4 h5

/-- Witness for `c8_skip_full_entry` at the single-entry buffer `c8buf`. -/
theorem c8_skip_full_entry_witness :
    scanFrom c8buf 0 =
      scanFrom c8buf (0 + 2 + tagSize c8buf 0 + 4 + bodyLen c8buf 0) :=
  c8_skip_full_entry c8buf 0 (by decide) (by decide) (by decide) (by decide)
    (by decide) (by decide)

/-- C9 counterexample: the table lookups themselves resolve to different
descriptions — `("VinylRoof", "-")` is `"Paint"` while
`("ColorsBody", "E")` is `"Blue"` — so the claim that the lookup result
resolves to the same description is false as stated. -/
theorem c9_counterexample :
    lookup_code "VinylRoof" "-" = some "Paint" ∧
    lookup_code "ColorsBody" "E" = some "Blue" ∧
    lookup_code "VinylRoof" "-" ≠ lookup_code "ColorsBody" "E" := by decide

/-- C9 amended: with the body color field set to `"E"`, the presentation
layer resolves `("VinylRoof", "-")` to the same swatch color as
`("ColorsBody", "E")` (RGB (0, 80, 200)) — the paint-matches-body special
case applies to the rendered color, not the textual description. -/
theorem c9_swatch_paint_matches_body :
    swatch_color "VinylRoof" "-" (some "E") =
      color_for_code_with_field "ColorsBody" "E" ∧
    swatch_color "VinylRoof" "-" (some "E") =
      swatch_color "ColorsBody" "E" (some "E") ∧
    swatch_color "VinylRoof" "-" (some "E") = some (0, 80, 200) := by decide

/-- C10: whenever the Value Reader returns `None`, the shared cursor is
left exactly at its pre-call position; it advances only on a successful
read. -/
theorem c10_cursor_atomicity (data : List Nat) (offset value_type : Nat)
    (h : (parse_value data offset value_type).1 = PResult.noval) :
    (parse_value data offset value_type).2 = offset :=
  parse_value_noval_offset data offset value_type h

/-- Witness for `c10_cursor_atomicity`: an int32 read on the empty buffer
returns `None` and leaves the cursor at 0. -/
theorem c10_cursor_atomicity_witness :
    (parse_value [] 0 VALUE_TYPE_INT32).2 = 0 :=
  c10_cursor_atomicity [] 0 VALUE_TYPE_INT32 (by decide)
